import Mathlib

/-!
Shallow embedding of the TalentScout Hiring Assistant chatbot
(`validators.py`, `data_handler.py`, `prompts.py`, `chatbot.py`, `config.py`)
and proofs about its conversation state machine, validators and record store.

Python strings are modelled as Lean `String` (a list of characters);
machine floats are modelled as exact rationals (`Rat`); Python dicts whose
key set is fixed are modelled as structures with `Option` fields (a `none`
field is an absent key); the external AI completion service is modelled as
an oracle supplying, per call site, either a reply text or a failure
(a raised provider exception); an uncaught Python exception is modelled by
an `Except` error value.
-/

/-! ### Python string primitives -/

/-- The characters Python's `str.strip()` removes (the `string.whitespace` set). -/
def pySpaceChars : List Char := [' ', '\t', '\n', '\r', '\x0b', '\x0c']

def pyIsSpace (c : Char) : Bool := pySpaceChars.contains c

def pyStripList (cs : List Char) : List Char :=
  ((cs.dropWhile pyIsSpace).reverse.dropWhile pyIsSpace).reverse

/-- Python `str.strip()`. -/
def pyStrip (s : String) : String := ⟨pyStripList s.toList⟩

/-- Python `str.lower()` (ASCII case mapping). -/
def pyLower (s : String) : String := ⟨s.toList.map Char.toLower⟩

/-- Python `str.upper()` (ASCII case mapping). -/
def pyUpper (s : String) : String := ⟨s.toList.map Char.toUpper⟩

/-- Whether `needle` occurs as a contiguous sublist of `hay`. -/
def listIsInfixOf (needle : List Char) : List Char → Bool
  | [] => needle.isEmpty
  | c :: t => needle.isPrefixOf (c :: t) || listIsInfixOf needle t

/-- Python `needle in hay` substring containment. -/
def strContains (hay needle : String) : Bool := listIsInfixOf needle.toList hay.toList

/-- Splits a character list at every character satisfying `p`, keeping empty
pieces, as Python `str.split(sep)` does for a one-character separator. -/
def splitListOnP (p : Char → Bool) : List Char → List (List Char)
  | [] => [[]]
  | x :: xs =>
    match splitListOnP p xs with
    | [] => [[x]]
    | h :: t => if p x then [] :: h :: t else (x :: h) :: t

/-- Python `text.split('\n')`. -/
def pySplitLines (s : String) : List String :=
  (splitListOnP (fun c => c = '\n') s.toList).map (fun cs => ⟨cs⟩)

/-- Python `str.split()` with no argument: split on whitespace runs, dropping
empty pieces. -/
def pySplitWs (s : String) : List String :=
  ((splitListOnP pyIsSpace s.toList).filter (fun cs => cs ≠ [])).map (fun cs => ⟨cs⟩)

/-- Python `s.replace(a, b)` for one-character `a`, `b`. -/
def replaceChar (s : String) (a b : Char) : String :=
  ⟨s.toList.map (fun c => if c = a then b else c)⟩

/-- Python `s.split(c, 1)[1]`: everything after the first occurrence of `c`
(used only where the caller has established that `c` occurs in `s`). -/
def afterFirst (c : Char) (s : String) : String :=
  ⟨(s.toList.dropWhile (fun d => d ≠ c)).drop 1⟩

/-- Python `s.split('/')[0]`: everything before the first `'/'` (the whole
string when there is none). -/
def beforeFirstSlash (s : String) : String :=
  ⟨s.toList.takeWhile (fun d => d ≠ '/')⟩

/-- Python `str.isdigit()` on a whole string (ASCII digits): non-empty and
all digits. -/
def pyIsdigit (s : String) : Bool := !s.toList.isEmpty && s.toList.all Char.isDigit

/-- First character of a string, if any. -/
def strHead? (s : String) : Option Char := s.toList.head?

/-- Python `filename.endswith(suffix)`. -/
def strEndsWith (s suffix : String) : Bool := suffix.toList.isSuffixOf s.toList

def digitsVal (cs : List Char) : Nat :=
  cs.foldl (fun a c => a * 10 + (c.toNat - 48)) 0

/-- Core of Python `float(s)` on an unsigned decimal numeral:
`digits`, `digits.digits`, `digits.`, or `.digits`. Exponent, `inf`/`nan` and
digit-group underscores are not modelled; no call site in this repository
feeds such forms into a branch a theorem below depends on. -/
def pyFloatCore (cs : List Char) : Option Rat :=
  let intPart := cs.takeWhile Char.isDigit
  let rest := cs.dropWhile Char.isDigit
  match rest with
  | [] => if intPart.isEmpty then none else some (digitsVal intPart)
  | '.' :: frac =>
    if frac.all Char.isDigit && !(intPart.isEmpty && frac.isEmpty) then
      some ((digitsVal intPart : Rat) + (digitsVal frac : Rat) / ((10 : Rat) ^ frac.length))
    else none
  | _ => none

/-- Python `float(s)` (modelled for optionally signed decimal numerals with
surrounding whitespace); `none` models a raised `ValueError`. -/
def pyFloat? (s : String) : Option Rat :=
  match pyStripList s.toList with
  | '+' :: cs => pyFloatCore cs
  | '-' :: cs => (pyFloatCore cs).map Neg.neg
  | cs => pyFloatCore cs

/-- Round-half-to-even to an integer, as Python float formatting rounds
(modelled on exact rationals). -/
def roundHalfEven (q : Rat) : Int :=
  let f := q.floor
  let r := q - f
  if r < 1/2 then f else if r > 1/2 then f + 1 else if f % 2 = 0 then f else f + 1

/-- Python `f"{q:.1f}"` on the exact-rational model of a float. -/
def format1f (q : Rat) : String :=
  let k := roundHalfEven (q * 10)
  let sign := if k < 0 then "-" else ""
  let a := k.natAbs
  sign ++ toString (a / 10) ++ "." ++ toString (a % 10)

/-! ### config.py -/

def EXIT_KEYWORDS : List String :=
  ["exit", "quit", "bye", "goodbye", "stop", "end",
   "cancel", "leave", "close", "terminate"]

def MAX_TECHNICAL_QUESTIONS : Nat := 7

def MIN_TECHNICAL_QUESTIONS : Nat := 5

inductive ConversationState
  | greeting
  | collect_name
  | collect_email
  | collect_phone
  | collect_experience
  | collect_position
  | collect_location
  | collect_tech_stack
  | ask_technical_questions
  | conclusion
  | ended
deriving DecidableEq, Repr

/-! ### validators.py -/

/-- Character class `[a-zA-Z0-9._%+-]` of the email regex's local part. -/
def emailLocalChar (c : Char) : Bool :=
  c.isAlpha || c.isDigit || c = '.' || c = '_' || c = '%' || c = '+' || c = '-'

/-- Character class `[a-zA-Z0-9.-]` of the email regex's domain part. -/
def emailDomainChar (c : Char) : Bool :=
  c.isAlpha || c.isDigit || c = '.' || c = '-'

/-- Whether `rest` matches the anchored tail `[a-zA-Z0-9.-]+\.[a-zA-Z]{2,}` of
the email regex: some split `rest = d ++ "." ++ t` with `d` non-empty domain
characters and `t` at least two letters (regex backtracking tries every split). -/
def matchesDomainTail (rest : List Char) : Bool :=
  (List.range rest.length).any (fun i =>
    match rest.drop i with
    | '.' :: t =>
      !(rest.take i).isEmpty && (rest.take i).all emailDomainChar
        && decide (2 ≤ t.length) && t.all Char.isAlpha
    | _ => false)

/-- Whether `cs` fully matches `^[a-zA-Z0-9._%+-]+@[a-zA-Z0-9.-]+\.[a-zA-Z]{2,}$`.
Since `'@'` is not a local-part character, the local part is necessarily the
maximal leading run of local-part characters. -/
def matchesEmailPattern (cs : List Char) : Bool :=
  match cs.dropWhile emailLocalChar with
  | '@' :: rest => !(cs.takeWhile emailLocalChar).isEmpty && matchesDomainTail rest
  | _ => false

/-- `validators.validate_email`. -/
def validate_email (email : String) : Bool × String :=
  if email = "" then (false, "Email address is required.")
  else if matchesEmailPattern (pyStrip email).toList then (true, "")
  else (false, "Please provide a valid email address (e.g., name@example.com).")

/-- Character class `[\s\-\(\)\+]` removed by `validate_phone`. -/
def phoneStripChar (c : Char) : Bool :=
  pyIsSpace c || c = '-' || c = '(' || c = ')' || c = '+'

/-- `validators.validate_phone`. -/
def validate_phone (phone : String) : Bool × String :=
  if phone = "" then (false, "Phone number is required.")
  else
    let cleaned : List Char := phone.toList.filter (fun c => !phoneStripChar c)
    if (!cleaned.isEmpty && cleaned.all Char.isDigit)
        && decide (10 ≤ cleaned.length) && decide (cleaned.length ≤ 15) then
      (true, "")
    else (false, "Please provide a valid phone number (10-15 digits).")

/-- `validators.validate_experience`. -/
def validate_experience (experience : String) : Bool × String :=
  if experience = "" then (false, "Years of experience is required.")
  else
    match pyFloat? experience with
    | some years =>
      if 0 ≤ years ∧ years ≤ 50 then (true, "")
      else (false, "Please provide a valid number of years (0-50).")
    | none => (false, "Please provide a valid number for years of experience.")

/-- `validators.validate_name`. -/
def validate_name (name : String) : Bool × String :=
  if name = "" ∨ (pyStrip name).length < 2 then
    (false, "Please provide your full name (at least 2 characters).")
  else (true, "")

/-- `validators.validate_non_empty`. -/
def validate_non_empty (value field_name : String) : Bool × String :=
  if value = "" ∨ (pyStrip value).length = 0 then (false, field_name ++ " is required.")
  else (true, "")

example : (validate_phone "+1 (555) 123-4567").1 = true := by decide
example : (validate_phone "12345").1 = false := by decide
example : (validate_email "name@example.com").1 = true := by decide
example : (validate_email "name@example").1 = false := by decide
example : pyFloat? "abc" = none := by decide
example : (pyFloat? "3.5").isSome = true := by decide
example : (validate_experience "abc").1 = false := by decide

/-! ### prompts.py (reply texts the Engine returns; templates that are only
sent to the AI service are absorbed into the oracle) -/

/-- `prompts.get_info_collection_prompt`. -/
def get_info_collection_prompt (field_name previous_response : String) : String :=
  let entries : List (String × String) :=
    [("email", "Thank you"
        ++ (if previous_response ≠ "" then ", " ++ ((pySplitWs previous_response).headD "") else "")
        ++ "! Could you please provide your email address?"),
     ("phone", "Great! What's the best phone number to reach you?"),
     ("experience", "Excellent! How many years of professional experience do you have in the tech industry?"),
     ("position", "Thank you! What position(s) are you interested in applying for?"),
     ("location", "Perfect! What is your current location (city/region)?"),
     ("tech_stack", "Now, please tell me about your tech stack. What programming languages, frameworks, databases, and tools are you proficient in?")]
  match entries.lookup field_name with
  | some p => p
  | none => "Please provide your " ++ field_name ++ "."

/-- `prompts.get_technical_question_intro`. -/
def get_technical_question_intro (tech_stack : String) : String :=
  "Great! Thank you for sharing your information. \n\nBased on your tech stack ("
    ++ tech_stack
    ++ ") and experience level, I'm now going to ask you some tailored technical questions to assess your expertise. These questions are specifically designed for your background.\n\nPlease answer to the best of your ability. Let me prepare your first question..."

/-- `prompts.get_technical_question_prompt`. -/
def get_technical_question_prompt (question technology : String) (question_number total_questions : Nat) : String :=
  "**Question " ++ toString question_number ++ " of " ++ toString total_questions
    ++ "** (" ++ technology ++ "):\n\n" ++ question

/-- `prompts.get_question_acknowledgment`. -/
def get_question_acknowledgment (remaining : Nat) : String :=
  if remaining > 0 then "Thank you for your answer! Let's move to the next question."
  else "Thank you for your thoughtful answers!"

/-- `prompts.get_conclusion_prompt` (the emoji of the source file are its
literal characters, a double-encoded UTF-8 artifact of the repository). -/
def get_conclusion_prompt (candidate_name decision message : String) : String :=
  if strContains (pyUpper decision) "SCREEN IN" then
    "ðŸŽ‰ **Congratulations, " ++ candidate_name ++ "!**\n\n" ++ message
      ++ "\n\nOur HR team will review your profile and contact you within 2-3 business days to schedule the next round of interviews.\n\nThank you for your time and thoughtful responses. We're excited about the possibility of having you join our team!\n\n**What happens next:**\nâœ… HR team reviews your screening results\nâœ… You'll receive an email/call for the next interview round\nâœ… Keep an eye on your inbox!\n\nGood luck! ðŸš€"
  else
    "Thank you, " ++ candidate_name ++ ".\n\n" ++ message
      ++ "\n\nWe appreciate the time you took to complete this screening. While you haven't met the criteria for this particular role at this time, we encourage you to:\n- Continue building your skills\n- Apply for other positions that match your experience\n- Reapply in the future as you gain more experience\n\nWe wish you all the best in your job search!\n\n**The conversation has ended.** You may close this window."

/-- `prompts.get_fallback_prompt`. -/
def get_fallback_prompt : String :=
  "I didn't quite understand that. Could you please rephrase or provide the requested information? \nI'm here to help you through the screening process."

/-- `prompts.get_exit_confirmation`. -/
def get_exit_confirmation : String :=
  "I understand you'd like to end the session. Thank you for your time! \nIf you'd like to complete the screening process later, feel free to start a new conversation. \nHave a great day!"

/-! ### chatbot.py: data model -/

/-- One generated technical question (`{"technology": ..., "question": ...}`). -/
structure TechQuestion where
  technology : String
  question : String
deriving DecidableEq, Repr

/-- One entry of `candidate_data['technical_qa']`. On the AI-failure path the
entry is stored without the `evaluation` and `score` keys; an absent key is a
`none` field. -/
structure QA where
  technology : String
  question : String
  answer : String
  evaluation : Option String
  score : Option String
deriving DecidableEq, Repr

/-- The `candidate_data` dict of `HiringAssistantChatbot`: the fixed key set
ever written by the code, a `none` field modelling an absent key. -/
structure CandidateData where
  name : Option String
  email : Option String
  phone : Option String
  experience : Option String
  position : Option String
  location : Option String
  tech_stack : Option String
  technical_qa : Option (List QA)
  evaluation_scores : Option (List String)
  screening_decision : Option String
  screening_reasoning : Option String
deriving DecidableEq, Repr

/-- A `candidate_data` dict with no keys yet (fresh session). -/
def emptyCData : CandidateData :=
  { name := none, email := none, phone := none, experience := none,
    position := none, location := none, tech_stack := none,
    technical_qa := none, evaluation_scores := none,
    screening_decision := none, screening_reasoning := none }

/-- The mutable state of a `HiringAssistantChatbot` instance. -/
structure Session where
  state : ConversationState
  candidate_data : CandidateData
  technical_questions : List TechQuestion
  current_question_index : Nat
deriving DecidableEq, Repr

/-- An uncaught Python exception escaping `process_message`. -/
inductive PyErr
  | keyError
  | indexError
  | aiError
deriving DecidableEq, Repr

/-- The external Gemini completion service, per call site of
`chat.send_message`: either the reply text or a raised provider error.
The prompt texts the code builds only shape the request, so they are
absorbed into the oracle's choice of reply. -/
structure AIOracle where
  greeting_reply : Except Unit String
  question_reply : Except Unit String
  eval_reply : Except Unit String
  decision_reply : Except Unit String

/-! ### chatbot.py: conversation logic -/

/-- `HiringAssistantChatbot.check_exit_intent`. -/
def check_exit_intent (message : String) : Bool :=
  let message_lower := pyStrip (pyLower message)
  EXIT_KEYWORDS.any (fun keyword => listIsInfixOf keyword.toList message_lower.toList)

/-- `HiringAssistantChatbot.is_conversation_complete`. -/
def is_conversation_complete (s : Session) : Bool :=
  s.state == ConversationState.ended

/-- The fixed reply of `process_message` in the ENDED state. -/
def session_closed_reply : String :=
  "The conversation has ended. Please refresh to start a new screening session."

/-- `HiringAssistantChatbot.get_greeting`: a send to the AI service with no
surrounding `try`, so a provider error propagates out. -/
def get_greeting (ai : AIOracle) (s : Session) : Except PyErr (String × Session) :=
  match ai.greeting_reply with
  | .ok t => .ok (t, { s with state := ConversationState.collect_name })
  | .error _ => .error PyErr.aiError

/-- `HiringAssistantChatbot._collect_name`. -/
def _collect_name (s : Session) (name : String) : String × Session :=
  let v := validate_name name
  if !v.1 then (v.2, s)
  else
    (get_info_collection_prompt "email" name,
     { s with candidate_data := { s.candidate_data with name := some (pyStrip name) },
              state := ConversationState.collect_email })

/-- `HiringAssistantChatbot._collect_email`. -/
def _collect_email (s : Session) (email : String) : String × Session :=
  let v := validate_email email
  if !v.1 then (v.2, s)
  else
    (get_info_collection_prompt "phone" "",
     { s with candidate_data := { s.candidate_data with email := some (pyStrip email) },
              state := ConversationState.collect_phone })

/-- `HiringAssistantChatbot._collect_phone`. -/
def _collect_phone (s : Session) (phone : String) : String × Session :=
  let v := validate_phone phone
  if !v.1 then (v.2, s)
  else
    (get_info_collection_prompt "experience" "",
     { s with candidate_data := { s.candidate_data with phone := some (pyStrip phone) },
              state := ConversationState.collect_experience })

/-- `HiringAssistantChatbot._collect_experience`. -/
def _collect_experience (s : Session) (experience : String) : String × Session :=
  let v := validate_experience experience
  if !v.1 then (v.2, s)
  else
    (get_info_collection_prompt "position" "",
     { s with candidate_data := { s.candidate_data with experience := some (pyStrip experience) },
              state := ConversationState.collect_position })

/-- `HiringAssistantChatbot._collect_position`. -/
def _collect_position (s : Session) (position : String) : String × Session :=
  let v := validate_non_empty position "Position"
  if !v.1 then (v.2, s)
  else if (pyStrip position).length < 3 then
    ("Please provide a valid position title (e.g., Software Engineer, Data Scientist, etc.).", s)
  else
    (get_info_collection_prompt "location" "",
     { s with candidate_data := { s.candidate_data with position := some (pyStrip position) },
              state := ConversationState.collect_location })

/-- `HiringAssistantChatbot._collect_location`. -/
def _collect_location (s : Session) (location : String) : String × Session :=
  let v := validate_non_empty location "Location"
  if !v.1 then (v.2, s)
  else if (pyStrip location).length < 2 then
    ("Please provide a valid location (city, state, or country).", s)
  else
    (get_info_collection_prompt "tech_stack" "",
     { s with candidate_data := { s.candidate_data with location := some (pyStrip location) },
              state := ConversationState.collect_tech_stack })

/-- Character class `[\d\.\)\-\*\s]` stripped from the front of a candidate
question line by `re.sub(r'^[\d\.\)\-\*\s]+', '', ...)`. -/
def qStripClass (c : Char) : Bool :=
  c.isDigit || c = '.' || c = ')' || c = '-' || c = '*' || pyIsSpace c

/-- One iteration of the question-parsing loop of `_collect_tech_stack`
(lines 258-268): the accepted question text of a raw reply line, if any. -/
def accept_line (rawLine : String) : Option String :=
  let line := pyStrip rawLine
  if line ≠ "" ∧ ((strHead? line).elim false Char.isDigit
      ∨ strHead? line = some '-' ∨ strHead? line = some '*') then
    let question_text := pyStrip ⟨line.toList.dropWhile qStripClass⟩
    if question_text ≠ "" ∧ question_text.length > 10 then some question_text else none
  else none

/-- The question-parsing loop of `_collect_tech_stack` over the whole AI
reply. -/
def parse_questions (generated_text : String) : List String :=
  (pySplitLines generated_text).filterMap accept_line

/-- The fixed fallback question list substituted when the question-generation
AI call raises. -/
def fallback_questions : List TechQuestion :=
  [{ technology := "General", question := "Describe your most challenging technical project and how you solved it." },
   { technology := "General", question := "How do you approach learning new technologies?" },
   { technology := "General", question := "Explain your experience with the technologies in your tech stack." },
   { technology := "General", question := "How do you ensure code quality in your projects?" },
   { technology := "General", question := "Describe a time when you had to debug a complex issue." }]

/-- The re-request reply of `_collect_tech_stack` when fewer than
`MIN_TECHNICAL_QUESTIONS` question lines are recovered. -/
def insufficient_questions_reply : String :=
  "I'm having trouble generating enough questions. Could you please re-enter your tech stack with more details?"

/-- Lines 291-301 of `_collect_tech_stack`, shared by the AI-success and
AI-fallback branches: initialize Q&A storage, advance the state, reset the
question cursor and return the introduction (built from the raw, unstripped
input). -/
def _finish_tech_stack (s : Session) (cd1 : CandidateData) (tech_stack : String)
    (qs : List TechQuestion) : String × Session :=
  let cd2 := { cd1 with technical_qa := some [], evaluation_scores := some [] }
  (get_technical_question_intro tech_stack
     ++ "\n\n**Type 'ready' when you're ready for the first question.**",
   { s with candidate_data := cd2, technical_questions := qs,
            state := ConversationState.ask_technical_questions,
            current_question_index := 0 })

/-- `HiringAssistantChatbot._collect_tech_stack`. The difficulty tier computed
from the stored experience only shapes the prompt text sent to the AI service,
which the oracle absorbs. -/
def _collect_tech_stack (ai : AIOracle) (s : Session) (tech_stack : String) : String × Session :=
  let v := validate_non_empty tech_stack "Tech stack"
  if !v.1 then (v.2, s)
  else
    let tech_stack_clean := pyStrip tech_stack
    if tech_stack_clean.length < 3 then
      ("Please provide a valid tech stack with at least one technology (e.g., Python, JavaScript, React, etc.).", s)
    else if pyIsdigit tech_stack_clean || (pySplitWs tech_stack_clean).isEmpty then
      ("Please provide a valid tech stack listing the technologies you work with (e.g., Python, Django, PostgreSQL).", s)
    else
      let words := pySplitWs (replaceChar tech_stack_clean ',' ' ')
      if words.length = 1 ∧ (words.headD "").length ≤ 2 then
        ("Please provide your complete tech stack. List the programming languages, frameworks, and tools you're proficient in.", s)
      else if !(tech_stack_clean.toList.any Char.isAlpha) then
        ("Please provide a valid tech stack (e.g., Python, JavaScript, React, AWS, etc.).", s)
      else
        let cd1 := { s.candidate_data with tech_stack := some tech_stack_clean }
        match ai.question_reply with
        | .ok generated_text =>
          let questions_list := parse_questions generated_text
          if questions_list.length < MIN_TECHNICAL_QUESTIONS then
            (insufficient_questions_reply, { s with candidate_data := cd1 })
          else
            _finish_tech_stack s cd1 tech_stack
              ((questions_list.take MAX_TECHNICAL_QUESTIONS).map
                (fun q => { technology := "AI-Generated", question := q }))
        | .error _ =>
          _finish_tech_stack s cd1 tech_stack fallback_questions

/-- `HiringAssistantChatbot._show_current_question`. -/
def _show_current_question (s : Session) : String :=
  match s.technical_questions[s.current_question_index]? with
  | some current_q =>
    get_technical_question_prompt current_q.question current_q.technology
      (s.current_question_index + 1) s.technical_questions.length
  | none => "No more questions."

/-- The evaluation-parsing loop of `_handle_technical_question` (lines
334-338), returning `(acknowledgment, score)`; each labelled line overwrites
the previous value, starting from the defaults. -/
def parse_eval (evaluation_text : String) : String × String :=
  (pySplitLines evaluation_text).foldl
    (fun acc line =>
      if strContains (pyUpper line) "SCORE:" then (acc.1, pyStrip (afterFirst ':' line))
      else if strContains (pyUpper line) "ACKNOWLEDGMENT:" then (pyStrip (afterFirst ':' line), acc.2)
      else acc)
    ("Thank you for your answer.", "N/A")

/-- The score a `technical_qa` entry contributes to the average:
`float(qa['score'].split('/')[0])`, `none` when the `score` key is absent or
the text before the first `'/'` does not parse as a number. -/
def qa_parsed_score (qa : QA) : Option Rat :=
  qa.score.bind (fun sc => pyFloat? (beforeFirstSlash sc))

/-- The score-accumulation loop of `_handle_technical_question` (lines
367-376): `(total_score, scored_count)`, entries whose score does not parse
contributing to neither. -/
def score_fold (qas : List QA) : Rat × Nat :=
  qas.foldl
    (fun acc qa =>
      match qa_parsed_score qa with
      | some v => (acc.1 + v, acc.2 + 1)
      | none => acc)
    (0, 0)

/-- Line 378: `avg_score = total_score / scored_count if scored_count > 0 else 0`. -/
def avg_score (qas : List QA) : Rat :=
  let t := score_fold qas
  if t.2 > 0 then t.1 / (t.2 : Rat) else 0

/-- The interview-summary block built at lines 382-386. -/
def summary_block (qas : List QA) : String :=
  "\n\nðŸ“Š **Interview Summary:**\n"
    ++ ("- Questions answered: " ++ toString qas.length ++ "\n")
    ++ (if (score_fold qas).2 > 0 then "- Average score: " ++ format1f (avg_score qas) ++ "/10\n" else "")
    ++ "\n"

/-- One iteration of the decision-parsing loop of `_conclude_conversation`
(lines 436-443); unlike the evaluation parser it strips each line first. -/
def decision_step (acc : String × String × String) (rawLine : String) :
    String × String × String :=
  let line := pyStrip rawLine
  if strContains (pyUpper line) "DECISION:" then (pyStrip (afterFirst ':' line), acc.2.1, acc.2.2)
  else if strContains (pyUpper line) "REASONING:" then (acc.1, pyStrip (afterFirst ':' line), acc.2.2)
  else if strContains (pyUpper line) "MESSAGE:" then (acc.1, acc.2.1, pyStrip (afterFirst ':' line))
  else acc

/-- The decision-parsing loop of `_conclude_conversation`, returning
`(decision, reasoning, message)`, starting from the defaults. -/
def parse_decision (decision_text : String) : String × String × String :=
  (pySplitLines decision_text).foldl decision_step
    ("SCREEN OUT", "", "Thank you for your time.")

/-- The static closing text of the `except` branch of
`_conclude_conversation` (lines 455-462). -/
def conclude_fallback_text (candidate_name : String) : String :=
  "Thank you, " ++ candidate_name ++ ", for completing the screening!\n\nOur HR team will review your responses and contact you if you're selected for the next round.\n\nWe appreciate your time and interest in our company. Good luck! ðŸ¤ž"

/-- `HiringAssistantChatbot._conclude_conversation`. On AI success the parsed
decision and reasoning are stored and a decision-keyed closing message is
returned; on AI failure nothing is stored and the static fallback text is
returned. Both branches set the state to ENDED. -/
def _conclude_conversation (ai : AIOracle) (s : Session) : String × Session :=
  let candidate_name := (s.candidate_data.name).getD "there"
  match ai.decision_reply with
  | .ok decision_text =>
    let parsed := parse_decision decision_text
    let cd := { s.candidate_data with screening_decision := some parsed.1,
                                      screening_reasoning := some parsed.2.1 }
    (get_conclusion_prompt candidate_name parsed.1 parsed.2.2,
     { s with candidate_data := cd, state := ConversationState.ended })
  | .error _ =>
    (conclude_fallback_text candidate_name, { s with state := ConversationState.ended })

/-- `HiringAssistantChatbot._handle_technical_question`. The list indexing at
line 317 and the `candidate_data` key accesses outside the `try` may raise;
inside the `try`, a missing `technical_qa` key sends the success path into the
`except` branch, whose own `append` then re-raises. -/
def _handle_technical_question (ai : AIOracle) (s : Session) (answer : String) :
    Except PyErr (String × Session) :=
  match s.technical_questions[s.current_question_index]? with
  | none => .error PyErr.indexError
  | some current_q =>
    match s.candidate_data.tech_stack with
    | none => .error PyErr.keyError
    | some _ =>
      match ai.eval_reply, s.candidate_data.technical_qa with
      | .ok evaluation_text, some qas =>
        let parsed := parse_eval evaluation_text
        let acknowledgment := parsed.1
        let qas2 := qas ++ [{ technology := current_q.technology,
                              question := current_q.question,
                              answer := pyStrip answer,
                              evaluation := some evaluation_text,
                              score := some parsed.2 : QA }]
        let s1 := { s with candidate_data := { s.candidate_data with technical_qa := some qas2 },
                           current_question_index := s.current_question_index + 1 }
        if h : s.current_question_index + 1 < s.technical_questions.length then
          let next_question := s.technical_questions[s.current_question_index + 1]
          .ok (acknowledgment ++ "\n\n"
                ++ get_technical_question_prompt next_question.question next_question.technology
                    (s.current_question_index + 2) s.technical_questions.length,
               s1)
        else
          let s2 := { s1 with state := ConversationState.conclusion }
          let concl := _conclude_conversation ai s2
          .ok (acknowledgment ++ summary_block qas2 ++ concl.1, concl.2)
      | _, _ =>
        match s.candidate_data.technical_qa with
        | none => .error PyErr.keyError
        | some qas =>
          let qas2 := qas ++ [{ technology := current_q.technology,
                                question := current_q.question,
                                answer := pyStrip answer,
                                evaluation := none,
                                score := none : QA }]
          let s1 := { s with candidate_data := { s.candidate_data with technical_qa := some qas2 },
                             current_question_index := s.current_question_index + 1 }
          if h : s.current_question_index + 1 < s.technical_questions.length then
            let next_question := s.technical_questions[s.current_question_index + 1]
            .ok (get_question_acknowledgment (s.technical_questions.length - (s.current_question_index + 1))
                  ++ "\n\n"
                  ++ get_technical_question_prompt next_question.question next_question.technology
                      (s.current_question_index + 2) s.technical_questions.length,
                 s1)
          else
            let s2 := { s1 with state := ConversationState.conclusion }
            .ok (_conclude_conversation ai s2)

/-- The fixed "ready" synonym set checked at line 117. -/
def ready_words : List String :=
  ["ok", "yes", "ready", "sure", "continue", "let's go", "proceed"]

/-- `HiringAssistantChatbot.process_message`: the Engine's single entry
point. -/
def process_message (ai : AIOracle) (s : Session) (user_message : String) :
    Except PyErr (String × Session) :=
  if check_exit_intent user_message then
    .ok (get_exit_confirmation, { s with state := ConversationState.ended })
  else
    match s.state with
    | ConversationState.greeting => get_greeting ai s
    | ConversationState.collect_name => .ok (_collect_name s user_message)
    | ConversationState.collect_email => .ok (_collect_email s user_message)
    | ConversationState.collect_phone => .ok (_collect_phone s user_message)
    | ConversationState.collect_experience => .ok (_collect_experience s user_message)
    | ConversationState.collect_position => .ok (_collect_position s user_message)
    | ConversationState.collect_location => .ok (_collect_location s user_message)
    | ConversationState.collect_tech_stack => .ok (_collect_tech_stack ai s user_message)
    | ConversationState.ask_technical_questions =>
      if s.current_question_index = 0
          ∧ ready_words.contains (pyLower (pyStrip user_message)) then
        .ok (_show_current_question s, s)
      else
        _handle_technical_question ai s user_message
    | ConversationState.conclusion => .ok (_conclude_conversation ai s)
    | ConversationState.ended => .ok (session_closed_reply, s)

/-! ### data_handler.py -/

/-- A parsed JSON value, the result of `json.load`. -/
inductive JsonVal
  | null
  | bool (b : Bool)
  | num (q : Rat)
  | str (s : String)
  | arr (l : List JsonVal)
  | obj (l : List (String × JsonVal))

/-- Python truthiness of a parsed JSON value (the `if candidate:` test). -/
def JsonVal.truthy : JsonVal → Bool
  | JsonVal.null => false
  | JsonVal.bool b => b
  | JsonVal.num q => q != 0
  | JsonVal.str s => s != ""
  | JsonVal.arr l => !l.isEmpty
  | JsonVal.obj l => !l.isEmpty

/-- Association-list lookup with string keys: Python dict lookup for the
per-key model of a directory or record (keys are unique in both). -/
def alookup {β : Type} (k : String) : List (String × β) → Option β
  | [] => none
  | p :: rest => if p.1 = k then some p.2 else alookup k rest

/-- The candidates directory: each entry is a filename paired with `some v`
(the file's parsed JSON content) or `none` (a file whose content is
unreadable or not valid JSON, so that `json.load` raises). The directory
prefix of `os.path.join` is elided: keys are the bare filenames `os.listdir`
returns. -/
def Directory : Type := List (String × Option JsonVal)

/-- `CandidateDataHandler.load_candidate`: `.ok none` when the file does not
exist, `.error` when reading or parsing the file raises. -/
def load_candidate (fs : Directory) (filepath : String) : Except Unit (Option JsonVal) :=
  match alookup filepath fs with
  | none => Except.ok none
  | some none => Except.error ()
  | some (some v) => Except.ok (some v)

/-- One iteration of the `get_all_candidates` loop. -/
def gather_step (fs : Directory) (candidates : List JsonVal) (filename : String) :
    Except Unit (List JsonVal) :=
  if strEndsWith filename ".json" then
    match load_candidate fs filename with
    | Except.error e => Except.error e
    | Except.ok none => Except.ok candidates
    | Except.ok (some candidate) =>
      if candidate.truthy then Except.ok (candidates ++ [candidate])
      else Except.ok candidates
  else Except.ok candidates

/-- `CandidateDataHandler.get_all_candidates`. -/
def get_all_candidates (fs : Directory) : Except Unit (List JsonVal) :=
  (fs.map Prod.fst).foldlM (gather_step fs) []

/-- Python dict assignment `d[k] = v`: overwrite in place when the key
exists, append otherwise. -/
def dictSet (d : List (String × JsonVal)) (k : String) (v : JsonVal) :
    List (String × JsonVal) :=
  if (d.map Prod.fst).contains k then
    d.map (fun p => if p.1 = k then (k, v) else p)
  else d ++ [(k, v)]

/-- `CandidateDataHandler.save_candidate`, with the two `datetime.now()`
readings passed in (`now_iso` for the stored timestamp, `now_stamp` for the
filename). The result is `(filename, the argument dict after the in-place
mutation, the content written to the file)`; `.error` models the
`AttributeError` raised when a stored `name` value is not a string. -/
def save_candidate (now_iso now_stamp : String) (candidate_data : List (String × JsonVal)) :
    Except Unit (String × List (String × JsonVal) × List (String × JsonVal)) :=
  let d := dictSet candidate_data "submission_time" (JsonVal.str now_iso)
  match (alookup "name" d).getD (JsonVal.str "unknown") with
  | JsonVal.str name =>
    let name_slug := replaceChar (pyLower name) ' ' '_'
    Except.ok (name_slug ++ "_" ++ now_stamp ++ ".json", d, d)
  | _ => Except.error ()

/-! ### Helper lemmas -/

lemma listIsInfixOf_iff (n : List Char) (h : List Char) :
    listIsInfixOf n h = true ↔ n <:+: h := by
  induction h with
  | nil => simp [listIsInfixOf, List.isEmpty_iff, List.infix_nil]
  | cons c t ih =>
    simp only [listIsInfixOf, Bool.or_eq_true, List.isPrefixOf_iff_prefix, ih,
      List.infix_cons_iff]

lemma infix_extend_right {n h : List Char} (t : List Char) (hn : n <:+: h) :
    n <:+: h ++ t :=
  hn.trans (List.prefix_append h t).isInfix

lemma strToList_append (a b : String) : (a ++ b).toList = a.toList ++ b.toList :=
  String.data_append a b

/-- Concrete sessions and oracles used by witnesses and counterexamples. -/
def aiAllFail : AIOracle :=
  { greeting_reply := Except.error (), question_reply := Except.error (),
    eval_reply := Except.error (), decision_reply := Except.error () }

def freshSession : Session :=
  { state := ConversationState.greeting, candidate_data := emptyCData,
    technical_questions := [], current_question_index := 0 }

def endedSession : Session :=
  { state := ConversationState.ended, candidate_data := emptyCData,
    technical_questions := [], current_question_index := 0 }

/-! ### Claims -/

/-- C1. For every session state (including ENDED) and every input string whose
lowercased trimmed form contains any keyword from the configured exit-keyword
set as a substring, `process_message` sets the session state to ENDED and
returns the fixed exit-confirmation text, skipping all other processing (the
rest of the session, `candidate_data` included, is untouched). -/
theorem c1_exit_intent_overrides (ai : AIOracle) (s : Session) (input : String)
    (h : ∃ kw ∈ EXIT_KEYWORDS, listIsInfixOf kw.toList (pyStrip (pyLower input)).toList = true) :
    process_message ai s input =
      Except.ok (get_exit_confirmation, { s with state := ConversationState.ended }) := by
  have hc : check_exit_intent input = true := by
    unfold check_exit_intent
    exact List.any_eq_true.mpr h
  unfold process_message
  rw [hc]
  simp

/-- C1 witness: the input "bye" in the ENDED state. -/
theorem c1_witness :
    (∃ kw ∈ EXIT_KEYWORDS, listIsInfixOf kw.toList (pyStrip (pyLower "bye")).toList = true) ∧
      process_message aiAllFail endedSession "bye" =
        Except.ok (get_exit_confirmation, { endedSession with state := ConversationState.ended }) :=
  ⟨⟨"bye", by decide, by decide⟩,
   c1_exit_intent_overrides aiAllFail endedSession "bye" ⟨"bye", by decide, by decide⟩⟩

/-- C2 counterexample: in the ENDED state the further input "bye" is answered
with the exit-confirmation text, not the fixed session-closed text, because
the exit-intent check runs first in every state. -/
theorem c2_counterexample :
    process_message aiAllFail endedSession "bye" =
        Except.ok (get_exit_confirmation, endedSession) ∧
      get_exit_confirmation ≠ session_closed_reply := by
  constructor
  · rfl
  · decide

/-- C2 as amended: once the state is ENDED, `is_conversation_complete` returns
true, and every further input that does not contain an exit keyword is
answered with the same fixed session-closed text, the session (state and
`candidate_data` alike) left entirely unchanged; an exit-keyword input
instead returns the exit confirmation, still leaving the state ENDED and the
data unchanged. -/
theorem c2_ended_terminal_amended (ai : AIOracle) (s : Session) (input : String)
    (hend : s.state = ConversationState.ended) :
    is_conversation_complete s = true ∧
      (check_exit_intent input = false →
        process_message ai s input = Except.ok (session_closed_reply, s)) ∧
      (check_exit_intent input = true →
        process_message ai s input =
          Except.ok (get_exit_confirmation, { s with state := ConversationState.ended })) := by
  refine ⟨by simp [is_conversation_complete, hend], fun hexit => ?_, fun hexit => ?_⟩
  · unfold process_message
    rw [hexit, hend]
    simp
  · unfold process_message
    rw [hexit]
    simp

/-- C2 witness: a session in the ENDED state, the further input "hello". -/
theorem c2_witness :
    endedSession.state = ConversationState.ended ∧
      check_exit_intent "hello" = false ∧
      is_conversation_complete endedSession = true ∧
      process_message aiAllFail endedSession "hello" =
        Except.ok (session_closed_reply, endedSession) :=
  ⟨rfl, by decide,
   (c2_ended_terminal_amended aiAllFail endedSession "hello" rfl).1,
   (c2_ended_terminal_amended aiAllFail endedSession "hello" rfl).2.1 (by decide)⟩

/-- C8. `validate_phone` accepts an input string if and only if, after
removing all whitespace and the characters `-`, `(`, `)`, `+`, the remaining
string consists only of digits and has length between 10 and 15 inclusive;
in particular "+1 (555) 123-4567" (11 digits) is accepted and "12345" is
rejected, and every rejection carries a non-empty error message. -/
theorem c8_validate_phone :
    (∀ phone : String,
        (validate_phone phone).1 = true ↔
          ((phone.toList.filter (fun c => !phoneStripChar c)).all Char.isDigit = true ∧
            10 ≤ (phone.toList.filter (fun c => !phoneStripChar c)).length ∧
            (phone.toList.filter (fun c => !phoneStripChar c)).length ≤ 15)) ∧
      (validate_phone "+1 (555) 123-4567").1 = true ∧
      (validate_phone "12345").1 = false ∧
      (∀ phone : String, (validate_phone phone).1 = false → (validate_phone phone).2 ≠ "") := by
  refine ⟨fun phone => ?_, by decide, by decide, fun phone => ?_⟩
  · unfold validate_phone
    by_cases he : phone = ""
    · subst he
      simp
    · simp only [he, if_false]
      constructor
      · intro h
        split at h
        · next hcond =>
          simp only [Bool.and_eq_true, decide_eq_true_eq] at hcond
          exact ⟨hcond.1.1.2, hcond.1.2, hcond.2⟩
        · simp at h
      · rintro ⟨hall, h10, h15⟩
        have hne : (phone.toList.filter (fun c => !phoneStripChar c)).isEmpty = false := by
          cases hl : (phone.toList.filter (fun c => !phoneStripChar c)).isEmpty
          · rfl
          · exfalso
            rw [List.isEmpty_iff.mp hl] at h10
            simp at h10
        rw [if_pos]
        simp only [Bool.and_eq_true, decide_eq_true_eq]
        exact ⟨⟨⟨by rw [hne]; rfl, hall⟩, h10⟩, h15⟩
  · unfold validate_phone
    by_cases he : phone = ""
    · subst he
      intro _
      decide
    · simp only [he, if_false]
      split
      · simp
      · intro _
        decide

lemma alookup_append (k : String) (d1 d2 : List (String × JsonVal)) :
    alookup k (d1 ++ d2) =
      match alookup k d1 with
      | some v => some v
      | none => alookup k d2 := by
  induction d1 with
  | nil => simp [alookup]
  | cons p rest ih =>
    by_cases hp : p.1 = k <;> simp [alookup, hp, ih]

lemma alookup_eq_none (k : String) (d : List (String × JsonVal))
    (h : (d.map Prod.fst).contains k = false) : alookup k d = none := by
  induction d with
  | nil => rfl
  | cons p rest ih =>
    simp only [List.map_cons, List.contains_cons, Bool.or_eq_false_iff] at h
    have hp : p.1 ≠ k := fun hh => by simp [hh] at h
    simp [alookup, hp, ih h.2]

lemma alookup_map_replace_self (k : String) (v : JsonVal) (d : List (String × JsonVal))
    (h : (d.map Prod.fst).contains k = true) :
    alookup k (d.map (fun p => if p.1 = k then (k, v) else p)) = some v := by
  induction d with
  | nil => simp at h
  | cons p rest ih =>
    by_cases hp : p.1 = k
    · simp [alookup, hp]
    · have h2 : (rest.map Prod.fst).contains k = true := by
        simp only [List.map_cons, List.contains_cons, Bool.or_eq_true] at h
        cases h with
        | inl h => exact absurd (eq_of_beq h).symm hp
        | inr h => exact h
      simp [alookup, hp, ih h2]

lemma alookup_map_replace_ne (k : String) (v : JsonVal) (k' : String)
    (d : List (String × JsonVal)) (hk : k' ≠ k) :
    alookup k' (d.map (fun p => if p.1 = k then (k, v) else p)) = alookup k' d := by
  induction d with
  | nil => rfl
  | cons p rest ih =>
    simp only [List.map_cons, alookup]
    by_cases hp : p.1 = k
    · rw [if_pos hp]
      rw [if_neg (show ¬ ((k, v).1 = k') from fun hh => hk hh.symm)]
      rw [if_neg (show ¬ (p.1 = k') from fun hh => hk (hh.symm.trans hp))]
      exact ih
    · rw [if_neg hp]
      by_cases hq : p.1 = k'
      · rw [if_pos hq, if_pos hq]
      · rw [if_neg hq, if_neg hq]
        exact ih

lemma filter_map_replace (k : String) (v : JsonVal) (d : List (String × JsonVal)) :
    (d.map (fun p => if p.1 = k then (k, v) else p)).filter (fun p => p.1 != k) =
      d.filter (fun p => p.1 != k) := by
  induction d with
  | nil => rfl
  | cons p rest ih =>
    by_cases hp : p.1 = k
    · simp [List.filter_cons, hp, ih]
    · simp [List.filter_cons, hp, ih]

lemma alookup_dictSet_self (d : List (String × JsonVal)) (k : String) (v : JsonVal) :
    alookup k (dictSet d k v) = some v := by
  unfold dictSet
  split
  · next h => exact alookup_map_replace_self k v d h
  · next h =>
    have hf : (d.map Prod.fst).contains k = false := by
      cases hb : (d.map Prod.fst).contains k
      · rfl
      · exact absurd hb h
    rw [alookup_append, alookup_eq_none k d hf]
    simp [alookup]

lemma alookup_dictSet_ne (d : List (String × JsonVal)) (k : String) (v : JsonVal)
    (k' : String) (hk : k' ≠ k) :
    alookup k' (dictSet d k v) = alookup k' d := by
  unfold dictSet
  split
  · exact alookup_map_replace_ne k v k' d hk
  · rw [alookup_append]
    cases hl : alookup k' d
    · have hkk : ¬ (k = k') := fun hh => hk hh.symm
      simp [alookup, hkk]
    · rfl

lemma filter_dictSet (d : List (String × JsonVal)) (k : String) (v : JsonVal) :
    (dictSet d k v).filter (fun p => p.1 != k) = d.filter (fun p => p.1 != k) := by
  unfold dictSet
  split
  · exact filter_map_replace k v d
  · rw [List.filter_append]
    simp [List.filter_cons]

/-- Whether the `name` key of a record is absent or holds a string (so that
`save_candidate`'s filename slug construction does not raise). -/
def name_ok (d : List (String × JsonVal)) : Prop :=
  match alookup "name" d with
  | none => True
  | some (JsonVal.str _) => True
  | some _ => False

/-- C10. `save_candidate` mutates the record dictionary passed to it: before
writing, it sets the `submission_time` key of its argument to the current
timestamp, every other key and value of the argument is left unchanged (both
under lookup and as the unchanged sublist of other entries), and the
persisted file content equals the argument after this insertion. -/
theorem c10_save_mutates_argument (now_iso now_stamp : String)
    (d : List (String × JsonVal)) (h : name_ok d) :
    ∃ fp,
      save_candidate now_iso now_stamp d =
          Except.ok (fp, dictSet d "submission_time" (JsonVal.str now_iso),
            dictSet d "submission_time" (JsonVal.str now_iso)) ∧
        alookup "submission_time" (dictSet d "submission_time" (JsonVal.str now_iso)) =
          some (JsonVal.str now_iso) ∧
        (∀ k, k ≠ "submission_time" →
          alookup k (dictSet d "submission_time" (JsonVal.str now_iso)) = alookup k d) ∧
        (dictSet d "submission_time" (JsonVal.str now_iso)).filter
            (fun p => p.1 != "submission_time") =
          d.filter (fun p => p.1 != "submission_time") := by
  have hname : alookup "name" (dictSet d "submission_time" (JsonVal.str now_iso)) =
      alookup "name" d :=
    alookup_dictSet_ne d "submission_time" (JsonVal.str now_iso) "name" (by decide)
  unfold name_ok at h
  simp only [save_candidate]
  rw [hname]
  cases hv : alookup "name" d with
  | none =>
    rw [hv] at h
    refine ⟨_, rfl, alookup_dictSet_self _ _ _,
      fun k hk => alookup_dictSet_ne _ _ _ k hk, filter_dictSet _ _ _⟩
  | some v =>
    rw [hv] at h
    cases v with
    | str nm =>
      refine ⟨_, rfl, alookup_dictSet_self _ _ _,
        fun k hk => alookup_dictSet_ne _ _ _ k hk, filter_dictSet _ _ _⟩
    | null => exact h.elim
    | bool b => exact h.elim
    | num q => exact h.elim
    | arr l => exact h.elim
    | obj l => exact h.elim

/-- C10 witness: a two-field record with a string name. -/
theorem c10_witness :
    name_ok [("name", JsonVal.str "Jo Smith"), ("email", JsonVal.str "jo@example.com")] ∧
      ∃ fp,
        save_candidate "2026-10-12T00:00:00" "20261012_000000"
            [("name", JsonVal.str "Jo Smith"), ("email", JsonVal.str "jo@example.com")] =
            Except.ok (fp,
              dictSet [("name", JsonVal.str "Jo Smith"), ("email", JsonVal.str "jo@example.com")]
                "submission_time" (JsonVal.str "2026-10-12T00:00:00"),
              dictSet [("name", JsonVal.str "Jo Smith"), ("email", JsonVal.str "jo@example.com")]
                "submission_time" (JsonVal.str "2026-10-12T00:00:00")) ∧
          alookup "submission_time"
              (dictSet [("name", JsonVal.str "Jo Smith"), ("email", JsonVal.str "jo@example.com")]
                "submission_time" (JsonVal.str "2026-10-12T00:00:00")) =
            some (JsonVal.str "2026-10-12T00:00:00") ∧
          (∀ k, k ≠ "submission_time" →
            alookup k
                (dictSet [("name", JsonVal.str "Jo Smith"), ("email", JsonVal.str "jo@example.com")]
                  "submission_time" (JsonVal.str "2026-10-12T00:00:00")) =
              alookup k [("name", JsonVal.str "Jo Smith"), ("email", JsonVal.str "jo@example.com")]) ∧
          (dictSet [("name", JsonVal.str "Jo Smith"), ("email", JsonVal.str "jo@example.com")]
              "submission_time" (JsonVal.str "2026-10-12T00:00:00")).filter
              (fun p => p.1 != "submission_time") =
            [("name", JsonVal.str "Jo Smith"), ("email", JsonVal.str "jo@example.com")].filter
              (fun p => p.1 != "submission_time") :=
  ⟨trivial,
   c10_save_mutates_argument "2026-10-12T00:00:00" "20261012_000000"
     [("name", JsonVal.str "Jo Smith"), ("email", JsonVal.str "jo@example.com")] trivial⟩

/-- C6 counterexample: the reply line "Explain closures in JavaScript." has
more than 10 characters left after stripping leading digits, punctuation and
bullet markers (the stripping removes nothing), so the claimed criterion
accepts it, yet the parser rejects it because the line does not begin with a
digit, '-' or '*'. -/
theorem c6_counterexample :
    accept_line "Explain closures in JavaScript." = none ∧
      (pyStrip ⟨(pyStrip "Explain closures in JavaScript.").toList.dropWhile qStripClass⟩).length > 10 := by
  constructor
  · rfl
  · decide

/-- C6 as amended: a line of the AI reply is accepted as a question if and
only if, after trimming, it is non-empty and starts with a digit, '-' or '*',
and after additionally stripping leading digits, dots, close-parentheses,
hyphens, asterisks and whitespace the remaining trimmed text is non-empty
and exceeds 10 characters; the accepted question is that remaining text. -/
theorem c6_line_acceptance_amended (rawLine : String) :
    accept_line rawLine =
      (if (pyStrip rawLine) ≠ "" ∧
          ((strHead? (pyStrip rawLine)).elim false Char.isDigit
            ∨ strHead? (pyStrip rawLine) = some '-' ∨ strHead? (pyStrip rawLine) = some '*') ∧
          pyStrip ⟨(pyStrip rawLine).toList.dropWhile qStripClass⟩ ≠ "" ∧
          (pyStrip ⟨(pyStrip rawLine).toList.dropWhile qStripClass⟩).length > 10 then
        some (pyStrip ⟨(pyStrip rawLine).toList.dropWhile qStripClass⟩)
      else none) := by
  simp only [accept_line]
  by_cases hA : (pyStrip rawLine) ≠ "" ∧
      ((strHead? (pyStrip rawLine)).elim false Char.isDigit
        ∨ strHead? (pyStrip rawLine) = some '-' ∨ strHead? (pyStrip rawLine) = some '*')
  · rw [if_pos hA]
    by_cases hB : pyStrip ⟨(pyStrip rawLine).toList.dropWhile qStripClass⟩ ≠ "" ∧
        (pyStrip ⟨(pyStrip rawLine).toList.dropWhile qStripClass⟩).length > 10
    · rw [if_pos hB, if_pos ⟨hA.1, hA.2, hB.1, hB.2⟩]
    · rw [if_neg hB, if_neg (fun hc => hB ⟨hc.2.2.1, hc.2.2.2⟩)]
  · rw [if_neg hA, if_neg (fun hc => hA ⟨hc.1, hc.2.1⟩)]

lemma score_fold_go (qas : List QA) (a : Rat) (n : Nat) :
    qas.foldl
        (fun acc qa =>
          match qa_parsed_score qa with
          | some v => (acc.1 + v, acc.2 + 1)
          | none => acc)
        (a, n) =
      (a + (qas.filterMap qa_parsed_score).sum, n + (qas.filterMap qa_parsed_score).length) := by
  induction qas generalizing a n with
  | nil => simp
  | cons qa rest ih =>
    cases hq : qa_parsed_score qa with
    | none => simp [List.foldl_cons, hq, List.filterMap_cons, ih]
    | some v =>
      simp only [List.foldl_cons, hq, List.filterMap_cons, ih, List.sum_cons, List.length_cons]
      refine Prod.ext ?_ ?_
      · simp only []
        ring
      · simp only []
        omega

/-- C7. The average score reported in the interview summary is computed over
exactly those `technical_qa` entries whose score field parses as a number
before the first '/': the loop's accumulator equals (sum of parsed
numerators, count of parsing entries), entries whose score does not parse
contributing to neither, and the average equals that sum divided by that
count. -/
theorem c7_average_score (qas : List QA)
    (h : 0 < (qas.filterMap qa_parsed_score).length) :
    score_fold qas =
        ((qas.filterMap qa_parsed_score).sum, (qas.filterMap qa_parsed_score).length) ∧
      avg_score qas =
        (qas.filterMap qa_parsed_score).sum / ((qas.filterMap qa_parsed_score).length : Rat) := by
  have hsf : score_fold qas =
      ((qas.filterMap qa_parsed_score).sum, (qas.filterMap qa_parsed_score).length) := by
    unfold score_fold
    rw [score_fold_go]
    simp
  refine ⟨hsf, ?_⟩
  unfold avg_score
  rw [hsf]
  simp only [gt_iff_lt, h, if_pos]

/-- A sample answered-question list: one parseable score "8/10", one
non-numeric score "N/A", one entry stored without a score key. -/
def c7SampleQAs : List QA :=
  [{ technology := "General", question := "q1", answer := "a1",
     evaluation := some "e1", score := some "8/10" },
   { technology := "General", question := "q2", answer := "a2",
     evaluation := some "e2", score := some "N/A" },
   { technology := "General", question := "q3", answer := "a3",
     evaluation := none, score := none }]

/-- C7 witness: only the "8/10" entry is counted. -/
theorem c7_witness :
    0 < (c7SampleQAs.filterMap qa_parsed_score).length ∧
      score_fold c7SampleQAs =
          ((c7SampleQAs.filterMap qa_parsed_score).sum,
            (c7SampleQAs.filterMap qa_parsed_score).length) ∧
        avg_score c7SampleQAs =
          (c7SampleQAs.filterMap qa_parsed_score).sum /
            ((c7SampleQAs.filterMap qa_parsed_score).length : Rat) :=
  ⟨by decide, c7_average_score c7SampleQAs (by decide)⟩

/-- Whether a directory entry lookup found an existing file whose content
does not parse (the case in which `json.load` raises). -/
def isCorruptEntry : Option (Option JsonVal) → Bool
  | some none => true
  | _ => false

/-- The record `get_all_candidates` keeps for one listed filename: `.json`
files that exist, parse, and are truthy. -/
def readable_entry (fs : Directory) (name : String) : Option JsonVal :=
  if strEndsWith name ".json" then
    match alookup name fs with
    | some (some v) => if v.truthy then some v else none
    | _ => none
  else none

/-- The list of readable records of a directory, in listing order. -/
def readable_records (fs : Directory) : List JsonVal :=
  (fs.map Prod.fst).filterMap (readable_entry fs)

lemma gather_go (fs : Directory) (names : List String) (acc : List JsonVal)
    (h : ∀ name ∈ names, strEndsWith name ".json" = true →
      isCorruptEntry (alookup name fs) = false) :
    names.foldlM (gather_step fs) acc =
      Except.ok (acc ++ names.filterMap (readable_entry fs)) := by
  induction names generalizing acc with
  | nil =>
    rw [List.foldlM_nil, List.filterMap_nil, List.append_nil]
    rfl
  | cons name rest ih =>
    have hrest : ∀ n ∈ rest, strEndsWith n ".json" = true →
        isCorruptEntry (alookup n fs) = false :=
      fun n hn => h n (List.mem_cons_of_mem _ hn)
    rw [List.foldlM_cons, List.filterMap_cons]
    by_cases hj : strEndsWith name ".json" = true
    · cases hl : alookup name fs with
      | none =>
        have hstep : gather_step fs acc name = Except.ok acc := by
          unfold gather_step load_candidate
          rw [if_pos hj, hl]
        have hent : readable_entry fs name = none := by
          unfold readable_entry
          rw [if_pos hj, hl]
        rw [hstep, hent]
        show rest.foldlM (gather_step fs) acc = _
        exact ih acc hrest
      | some o =>
        cases o with
        | none =>
          exfalso
          have := h name (List.mem_cons_self name rest) hj
          rw [hl] at this
          exact Bool.true_eq_false ▸ this
        | some v =>
          by_cases ht : v.truthy = true
          · have hstep : gather_step fs acc name = Except.ok (acc ++ [v]) := by
              unfold gather_step load_candidate
              rw [if_pos hj, hl]
              simp [ht]
            have hent : readable_entry fs name = some v := by
              unfold readable_entry
              rw [if_pos hj, hl]
              simp [ht]
            rw [hstep, hent]
            show rest.foldlM (gather_step fs) (acc ++ [v]) = _
            rw [ih (acc ++ [v]) hrest]
            simp
          · have ht2 : v.truthy = false := by
              cases hb : v.truthy
              · rfl
              · exact absurd hb ht
            have hstep : gather_step fs acc name = Except.ok acc := by
              unfold gather_step load_candidate
              rw [if_pos hj, hl]
              simp [ht2]
            have hent : readable_entry fs name = none := by
              unfold readable_entry
              rw [if_pos hj, hl]
              simp [ht2]
            rw [hstep, hent]
            show rest.foldlM (gather_step fs) acc = _
            exact ih acc hrest
    · have hj2 : strEndsWith name ".json" = false := by
        cases hb : strEndsWith name ".json"
        · rfl
        · exact absurd hb hj
      have hstep : gather_step fs acc name = Except.ok acc := by
        unfold gather_step
        rw [hj2]
        rfl
      have hent : readable_entry fs name = none := by
        unfold readable_entry
        rw [hj2]
        rfl
      rw [hstep, hent]
      show rest.foldlM (gather_step fs) acc = _
      exact ih acc hrest

/-- A directory with one readable record and one `.json` file whose content
does not parse. -/
def corruptDir : Directory :=
  [("alice.json", some (JsonVal.obj [("name", JsonVal.str "alice")])),
   ("corrupt.json", none)]

/-- C9 counterexample: with a corrupt `.json` entry in the directory,
`get_all_candidates` raises instead of returning the readable records,
because `load_candidate` only guards against a missing file, not against a
file `json.load` cannot parse. -/
theorem c9_counterexample :
    get_all_candidates corruptDir = Except.error () ∧
      ∀ l : List JsonVal, get_all_candidates corruptDir ≠ Except.ok l := by
  refine ⟨rfl, fun l hl => ?_⟩
  rw [show get_all_candidates corruptDir = Except.error () from rfl] at hl
  exact Except.noConfusion hl

/-- C9 as amended: `get_all_candidates` enumerates the directory listing,
skips filenames not ending in ".json", skips listed files that do not exist
and records that load as falsy, and returns the readable records in listing
order — provided no existing `.json` entry has unparseable content; such an
entry makes the whole listing raise. -/
theorem c9_loadAll_amended (fs : Directory)
    (h : ∀ name ∈ fs.map Prod.fst, strEndsWith name ".json" = true →
      isCorruptEntry (alookup name fs) = false) :
    get_all_candidates fs = Except.ok (readable_records fs) := by
  unfold get_all_candidates readable_records
  rw [gather_go fs (fs.map Prod.fst) [] h]
  simp

/-- A directory with a readable record, a corrupt non-json file (skipped by
the extension filter) and a falsy empty record (loaded, then dropped). -/
def goodDir : Directory :=
  [("alice.json", some (JsonVal.obj [("name", JsonVal.str "alice")])),
   ("notes.txt", none),
   ("empty.json", some (JsonVal.obj []))]

/-- C9 witness: a listing with no corrupt `.json` entry loads completely. -/
theorem c9_witness :
    (∀ name ∈ goodDir.map Prod.fst, strEndsWith name ".json" = true →
        isCorruptEntry (alookup name goodDir) = false) ∧
      get_all_candidates goodDir = Except.ok (readable_records goodDir) :=
  ⟨by decide, c9_loadAll_amended goodDir (by decide)⟩

lemma decision_step_fst (acc : String × String × String) (l : String)
    (h : strContains (pyUpper (pyStrip l)) "DECISION:" = false) :
    (decision_step acc l).1 = acc.1 := by
  unfold decision_step
  simp only [h, Bool.false_eq_true, if_false]
  split_ifs <;> rfl

lemma decision_step_snd (acc : String × String × String) (l : String)
    (h : strContains (pyUpper (pyStrip l)) "REASONING:" = false) :
    (decision_step acc l).2.1 = acc.2.1 := by
  unfold decision_step
  simp only [h, Bool.false_eq_true, if_false]
  split_ifs <;> rfl

lemma decision_step_thd (acc : String × String × String) (l : String)
    (h : strContains (pyUpper (pyStrip l)) "MESSAGE:" = false) :
    (decision_step acc l).2.2 = acc.2.2 := by
  unfold decision_step
  simp only [h, Bool.false_eq_true, if_false]
  split_ifs <;> rfl

lemma parse_decision_fold_fst (lines : List String) (acc : String × String × String)
    (h : ∀ l ∈ lines, strContains (pyUpper (pyStrip l)) "DECISION:" = false) :
    (lines.foldl decision_step acc).1 = acc.1 := by
  induction lines generalizing acc with
  | nil => rfl
  | cons l rest ih =>
    rw [List.foldl_cons, ih (decision_step acc l) (fun x hx => h x (List.mem_cons_of_mem _ hx)),
      decision_step_fst acc l (h l (List.mem_cons_self l rest))]

lemma parse_decision_fold_snd (lines : List String) (acc : String × String × String)
    (h : ∀ l ∈ lines, strContains (pyUpper (pyStrip l)) "REASONING:" = false) :
    (lines.foldl decision_step acc).2.1 = acc.2.1 := by
  induction lines generalizing acc with
  | nil => rfl
  | cons l rest ih =>
    rw [List.foldl_cons, ih (decision_step acc l) (fun x hx => h x (List.mem_cons_of_mem _ hx)),
      decision_step_snd acc l (h l (List.mem_cons_self l rest))]

lemma parse_decision_fold_thd (lines : List String) (acc : String × String × String)
    (h : ∀ l ∈ lines, strContains (pyUpper (pyStrip l)) "MESSAGE:" = false) :
    (lines.foldl decision_step acc).2.2 = acc.2.2 := by
  induction lines generalizing acc with
  | nil => rfl
  | cons l rest ih =>
    rw [List.foldl_cons, ih (decision_step acc l) (fun x hx => h x (List.mem_cons_of_mem _ hx)),
      decision_step_thd acc l (h l (List.mem_cons_self l rest))]

lemma conclude_state_ended (ai : AIOracle) (s : Session) :
    (_conclude_conversation ai s).2.state = ConversationState.ended := by
  unfold _conclude_conversation
  cases ai.decision_reply <;> rfl

/-- A session that has reached the conclusion step. -/
def concludeSession : Session :=
  { state := ConversationState.conclusion,
    candidate_data := { emptyCData with name := some "Alex" },
    technical_questions := [], current_question_index := 0 }

/-- C5 counterexample: when the decision AI call fails, the session is ended
with the generic fallback message but no screening-decision or
screening-reasoning key is stored into `candidate_data`, contrary to the
claim that they are stored in every case including call failure. -/
theorem c5_counterexample :
    (_conclude_conversation aiAllFail concludeSession).2.state = ConversationState.ended ∧
      (_conclude_conversation aiAllFail concludeSession).1 = conclude_fallback_text "Alex" ∧
      (_conclude_conversation aiAllFail concludeSession).2.candidate_data.screening_decision = none ∧
      (_conclude_conversation aiAllFail concludeSession).2.candidate_data.screening_reasoning = none :=
  ⟨rfl, rfl, rfl, rfl⟩

/-- C5 as amended: in the conclusion step the session always ends; when the
decision AI call succeeds, the parsed decision defaults to "SCREEN OUT", the
reasoning to empty and the message to the generic message whenever the
corresponding label is absent from the reply, and the decision and reasoning
are stored into `candidate_data` under the screening-decision and
screening-reasoning keys; when the call fails, the generic fallback message
is returned and nothing is stored (`candidate_data` is left unchanged, the
screening keys absent if they were absent). -/
theorem c5_conclusion_defaults_amended (ai : AIOracle) (s : Session) :
    (_conclude_conversation ai s).2.state = ConversationState.ended ∧
      (∀ t, ai.decision_reply = Except.ok t →
        (_conclude_conversation ai s).2.candidate_data =
            { s.candidate_data with screening_decision := some (parse_decision t).1,
                                    screening_reasoning := some (parse_decision t).2.1 } ∧
          (_conclude_conversation ai s).1 =
            get_conclusion_prompt ((s.candidate_data.name).getD "there")
              (parse_decision t).1 (parse_decision t).2.2 ∧
          ((∀ l ∈ pySplitLines t, strContains (pyUpper (pyStrip l)) "DECISION:" = false) →
            (parse_decision t).1 = "SCREEN OUT") ∧
          ((∀ l ∈ pySplitLines t, strContains (pyUpper (pyStrip l)) "REASONING:" = false) →
            (parse_decision t).2.1 = "") ∧
          ((∀ l ∈ pySplitLines t, strContains (pyUpper (pyStrip l)) "MESSAGE:" = false) →
            (parse_decision t).2.2 = "Thank you for your time.")) ∧
      (ai.decision_reply = Except.error () →
        (_conclude_conversation ai s).1 =
            conclude_fallback_text ((s.candidate_data.name).getD "there") ∧
          (_conclude_conversation ai s).2.candidate_data = s.candidate_data) := by
  refine ⟨conclude_state_ended ai s, fun t ht => ?_, fun ht => ?_⟩
  · unfold _conclude_conversation
    rw [ht]
    exact ⟨rfl, rfl,
      fun hd => parse_decision_fold_fst (pySplitLines t) _ hd,
      fun hd => parse_decision_fold_snd (pySplitLines t) _ hd,
      fun hd => parse_decision_fold_thd (pySplitLines t) _ hd⟩
  · unfold _conclude_conversation
    rw [ht]
    exact ⟨rfl, rfl⟩

/-- An oracle whose decision reply carries none of the expected labels. -/
def aiNoLabels : AIOracle :=
  { greeting_reply := Except.error (), question_reply := Except.error (),
    eval_reply := Except.error (), decision_reply := Except.ok "Verdict unclear" }

/-- C5 witness: a label-free decision reply yields the defaults, stored. -/
theorem c5_witness :
    (_conclude_conversation aiNoLabels concludeSession).2.state = ConversationState.ended ∧
      (parse_decision "Verdict unclear").1 = "SCREEN OUT" ∧
      (parse_decision "Verdict unclear").2.1 = "" ∧
      (parse_decision "Verdict unclear").2.2 = "Thank you for your time." ∧
      (_conclude_conversation aiNoLabels concludeSession).2.candidate_data =
        { concludeSession.candidate_data with
            screening_decision := some (parse_decision "Verdict unclear").1,
            screening_reasoning := some (parse_decision "Verdict unclear").2.1 } := by
  have h := c5_conclusion_defaults_amended aiNoLabels concludeSession
  have hok := h.2.1 "Verdict unclear" rfl
  exact ⟨h.1, hok.2.2.1 (by decide), hok.2.2.2.1 (by decide), hok.2.2.2.2 (by decide), hok.1⟩

/-- Whether an input passes every tech-stack check of `_collect_tech_stack`
that precedes the AI question-generation call (the claim's "passes the
tech-stack validation"). -/
def tech_stack_accepted (t : String) : Bool :=
  (validate_non_empty t "Tech stack").1
  && !(decide ((pyStrip t).length < 3))
  && !(pyIsdigit (pyStrip t) || (pySplitWs (pyStrip t)).isEmpty)
  && !(decide ((pySplitWs (replaceChar (pyStrip t) ',' ' ')).length = 1
        ∧ ((pySplitWs (replaceChar (pyStrip t) ',' ' ')).headD "").length ≤ 2))
  && (pyStrip t).toList.any Char.isAlpha

lemma collect_tech_stack_accepted (ai : AIOracle) (s : Session) (t : String)
    (hacc : tech_stack_accepted t = true) :
    _collect_tech_stack ai s t =
      (match ai.question_reply with
       | Except.ok generated_text =>
         if (parse_questions generated_text).length < MIN_TECHNICAL_QUESTIONS then
           (insufficient_questions_reply,
            { s with candidate_data := { s.candidate_data with tech_stack := some (pyStrip t) } })
         else
           _finish_tech_stack s { s.candidate_data with tech_stack := some (pyStrip t) } t
             (((parse_questions generated_text).take MAX_TECHNICAL_QUESTIONS).map
               (fun q => { technology := "AI-Generated", question := q }))
       | Except.error _ =>
         _finish_tech_stack s { s.candidate_data with tech_stack := some (pyStrip t) } t
           fallback_questions) := by
  simp only [tech_stack_accepted, Bool.and_eq_true] at hacc
  obtain ⟨⟨⟨⟨h1, h2⟩, h3⟩, h4⟩, h5⟩ := hacc
  have hnot : ∀ b : Bool, (!b) = true → b = false := by decide
  have h2' : ¬ ((pyStrip t).length < 3) :=
    of_decide_eq_false (hnot _ h2)
  have h3' : (pyIsdigit (pyStrip t) || (pySplitWs (pyStrip t)).isEmpty) = false :=
    hnot _ h3
  have h4' : ¬ ((pySplitWs (replaceChar (pyStrip t) ',' ' ')).length = 1
      ∧ ((pySplitWs (replaceChar (pyStrip t) ',' ' ')).headD "").length ≤ 2) :=
    of_decide_eq_false (hnot _ h4)
  simp only [_collect_tech_stack, h1, Bool.not_true, Bool.false_eq_true, if_false,
    h3', h5, if_true]
  rw [if_neg h2', if_neg h4']

/-- C3. In state COLLECT_TECH_STACK, when the input passes the tech-stack
validation, the input does not trigger exit intent, the question-generation
AI call succeeds, and the reply yields fewer than `MIN_TECHNICAL_QUESTIONS`
(5) parseable question lines, `process_message` returns the fixed re-request
message asking for a more detailed tech stack and does not advance: the state
stays COLLECT_TECH_STACK, the question list and question cursor are
untouched, and only the `tech_stack` field of `candidate_data` is (re)written
with the trimmed input. -/
theorem c3_insufficient_questions_no_advance (ai : AIOracle) (s : Session)
    (input generated : String)
    (hstate : s.state = ConversationState.collect_tech_stack)
    (hexit : check_exit_intent input = false)
    (hacc : tech_stack_accepted input = true)
    (hai : ai.question_reply = Except.ok generated)
    (hfew : (parse_questions generated).length < MIN_TECHNICAL_QUESTIONS) :
    ∃ s2, process_message ai s input = Except.ok (insufficient_questions_reply, s2) ∧
      s2.state = ConversationState.collect_tech_stack ∧
      s2.technical_questions = s.technical_questions ∧
      s2.current_question_index = s.current_question_index ∧
      s2.candidate_data =
        { s.candidate_data with tech_stack := some (pyStrip input) } := by
  unfold process_message
  rw [hexit]
  simp only [Bool.false_eq_true, if_false, hstate]
  rw [collect_tech_stack_accepted ai s input hacc, hai]
  simp only [if_pos hfew]
  exact ⟨_, rfl, hstate, rfl, rfl, rfl⟩

/-- A session that has reached the tech-stack collection step. -/
def techSession : Session :=
  { state := ConversationState.collect_tech_stack,
    candidate_data :=
      { emptyCData with
          name := some "Alex",
          email := some "a@b.co",
          phone := some "1234567890",
          experience := some "3",
          position := some "Dev",
          location := some "NY" },
    technical_questions := [], current_question_index := 0 }

/-- An oracle whose question-generation reply yields only two parseable
question lines. -/
def aiFewQuestions : AIOracle :=
  { greeting_reply := Except.error (),
    question_reply := Except.ok "1. What is Python used for?\n2. Explain Django views.",
    eval_reply := Except.error (), decision_reply := Except.error () }

/-- C3 witness: a valid tech stack whose generated reply parses to two
questions, below the minimum of five. -/
theorem c3_witness :
    techSession.state = ConversationState.collect_tech_stack ∧
      check_exit_intent "Python, Django, PostgreSQL" = false ∧
      tech_stack_accepted "Python, Django, PostgreSQL" = true ∧
      (parse_questions "1. What is Python used for?\n2. Explain Django views.").length
        < MIN_TECHNICAL_QUESTIONS ∧
      ∃ s2, process_message aiFewQuestions techSession "Python, Django, PostgreSQL" =
          Except.ok (insufficient_questions_reply, s2) ∧
        s2.state = ConversationState.collect_tech_stack ∧
        s2.technical_questions = techSession.technical_questions ∧
        s2.current_question_index = techSession.current_question_index ∧
        s2.candidate_data =
          { techSession.candidate_data with
              tech_stack := some (pyStrip "Python, Django, PostgreSQL") } :=
  ⟨rfl, by decide, by decide, by decide,
   c3_insufficient_questions_no_advance aiFewQuestions techSession
     "Python, Django, PostgreSQL" "1. What is Python used for?\n2. Explain Django views."
     rfl (by decide) (by decide) rfl (by decide)⟩

lemma summary_block_contains (qas : List QA) :
    strContains (summary_block qas) "**Interview Summary:**" = true := by
  unfold strContains summary_block
  rw [listIsInfixOf_iff, strToList_append, strToList_append, strToList_append]
  refine infix_extend_right _ (infix_extend_right _ (infix_extend_right _ ?_))
  rw [← listIsInfixOf_iff]
  decide

/-- A session one answer away from the end of the technical questions. -/
def lastQSession : Session :=
  { state := ConversationState.ask_technical_questions,
    candidate_data :=
      { emptyCData with
          name := some "Alex",
          tech_stack := some "Python",
          technical_qa := some [] },
    technical_questions :=
      [{ technology := "General",
         question := "Describe your most challenging technical project." }],
    current_question_index := 0 }

/-- C4 counterexample: when the evaluation AI call fails on the final answer,
the code still advances the index to the end and ends the session within the
same call, but the returned text is only the conclusion — it contains no
acknowledgment and no summary block, contrary to the claim's "for every
answer input". -/
theorem c4_counterexample :
    ∃ r, process_message aiAllFail lastQSession "I built a web app once." = Except.ok r ∧
      r.2.current_question_index = lastQSession.technical_questions.length ∧
      r.2.state = ConversationState.ended ∧
      strContains r.1 "Interview Summary" = false ∧
      r.1 = conclude_fallback_text "Alex" := by
  refine ⟨_, rfl, ?_, ?_, ?_, ?_⟩
  · rfl
  · rfl
  · decide
  · rfl

/-- C4 as amended: for every answer input processed in
ASK_TECHNICAL_QUESTIONS whose evaluation AI call succeeds and that makes the
question cursor reach the end of `technical_questions`, the text returned by
that same `process_message` call is the acknowledgment followed by a summary
block (containing the Interview Summary header) followed by the conclusion
text, and within that single call the state becomes CONCLUSION (the session
`s2` handed to the conclusion step) and then immediately ENDED. -/
theorem c4_final_answer_summary_amended (ai : AIOracle) (s : Session)
    (input evalText ts : String) (qas : List QA)
    (hstate : s.state = ConversationState.ask_technical_questions)
    (hexit : check_exit_intent input = false)
    (hready : ¬ (s.current_question_index = 0
      ∧ ready_words.contains (pyLower (pyStrip input)) = true))
    (hts : s.candidate_data.tech_stack = some ts)
    (hqa : s.candidate_data.technical_qa = some qas)
    (heval : ai.eval_reply = Except.ok evalText)
    (hlast : s.current_question_index + 1 = s.technical_questions.length) :
    ∃ qa_new s2,
      s2.state = ConversationState.conclusion ∧
      process_message ai s input =
        Except.ok ((parse_eval evalText).1 ++ summary_block (qas ++ [qa_new])
            ++ (_conclude_conversation ai s2).1,
          (_conclude_conversation ai s2).2) ∧
      (_conclude_conversation ai s2).2.state = ConversationState.ended ∧
      strContains (summary_block (qas ++ [qa_new])) "**Interview Summary:**" = true := by
  have hidx : s.current_question_index < s.technical_questions.length := by omega
  have hq : s.technical_questions[s.current_question_index]? =
      some (s.technical_questions[s.current_question_index]) :=
    List.getElem?_eq_getElem hidx
  have hnlt : ¬ (s.current_question_index + 1 < s.technical_questions.length) := by omega
  unfold process_message
  rw [hexit]
  simp only [Bool.false_eq_true, if_false, hstate]
  rw [if_neg hready]
  unfold _handle_technical_question
  rw [hq, hts, heval, hqa]
  simp only [dif_neg hnlt]
  exact ⟨_, _, rfl, rfl, conclude_state_ended ai _, summary_block_contains _⟩

/-- An oracle that answers the evaluation and decision calls. -/
def aiEvalOk : AIOracle :=
  { greeting_reply := Except.error (),
    question_reply := Except.error (),
    eval_reply := Except.ok "ACKNOWLEDGMENT: Nice work.\nSCORE: 8/10",
    decision_reply := Except.ok "DECISION: SCREEN IN\nREASONING: solid\nMESSAGE: Congrats" }

/-- C4 witness: the final answer with a successful evaluation call. -/
theorem c4_witness :
    lastQSession.state = ConversationState.ask_technical_questions ∧
      check_exit_intent "I would use a cache." = false ∧
      lastQSession.current_question_index + 1 = lastQSession.technical_questions.length ∧
      aiEvalOk.eval_reply = Except.ok "ACKNOWLEDGMENT: Nice work.\nSCORE: 8/10" ∧
      ∃ qa_new s2,
        s2.state = ConversationState.conclusion ∧
        process_message aiEvalOk lastQSession "I would use a cache." =
          Except.ok ((parse_eval "ACKNOWLEDGMENT: Nice work.\nSCORE: 8/10").1
              ++ summary_block ([] ++ [qa_new])
              ++ (_conclude_conversation aiEvalOk s2).1,
            (_conclude_conversation aiEvalOk s2).2) ∧
        (_conclude_conversation aiEvalOk s2).2.state = ConversationState.ended ∧
        strContains (summary_block ([] ++ [qa_new])) "**Interview Summary:**" = true :=
  ⟨rfl, by decide, rfl, rfl,
   c4_final_answer_summary_amended aiEvalOk lastQSession "I would use a cache."
     "ACKNOWLEDGMENT: Nice work.\nSCORE: 8/10" "Python" []
     rfl (by decide) (by decide) rfl rfl rfl rfl⟩
